import Mathlib

/-!
Verification of the Pinboard-to-Raindrop migration scripts
(`pinboard_to_raindrop.py` and `suggest_collections.py`).

The definitions below are a shallow embedding of the decision core of the
two scripts: tag normalization, ordered rule matching, collection selection,
payload construction, the update delta, the reconciliation branch of the main
loop, duplicate tracking, and the collection-map loader.  External I/O
(HTTP requests, write outcomes) is passed in explicitly as data.
-/

/-! ## Python-level helpers -/

/-- Python truthiness of an optional string field: `None` and `""` are falsy. -/
def pyTruthy : Option String → Bool
  | some s => s ≠ ""
  | none => false

/-- Python string comparison `a <= b`: lexicographic over Unicode code points,
which is the order on the underlying character lists. -/
def pyStrLe (a b : String) : Prop := a.data ≤ b.data

instance : DecidableRel pyStrLe := fun a b =>
  inferInstanceAs (Decidable (a.data ≤ b.data))

instance : IsTotal String pyStrLe := ⟨fun a b => le_total a.data b.data⟩

instance : IsTrans String pyStrLe := ⟨fun _ _ _ h₁ h₂ => le_trans h₁ h₂⟩

instance : IsAntisymm String pyStrLe :=
  ⟨fun a b h₁ h₂ => by
    cases a; cases b; exact congrArg String.mk (le_antisymm h₁ h₂)⟩

/-- Python `sorted(set(l))` for a list of strings: deduplicate, then sort
lexicographically by code points. -/
def py_sorted_set (l : List String) : List String :=
  List.insertionSort pyStrLe l.dedup

/-- Auxiliary recursion for `py_split_space`, carrying the reversed current
token. -/
def py_split_space_aux : List Char → List Char → List String
  | [], acc => [String.mk acc.reverse]
  | c :: cs, acc =>
    if c = ' ' then String.mk acc.reverse :: py_split_space_aux cs []
    else py_split_space_aux cs (c :: acc)

/-- Python `s.split(" ")`: cut at every single space character, so consecutive
spaces produce empty tokens and `"".split(" ") == [""]`. -/
def py_split_space (s : String) : List String := py_split_space_aux s.data []

/-- Python `s.lower()` (ASCII case folding, character by character). -/
def py_lower (s : String) : String := String.mk (s.data.map Char.toLower)

/-! ## JSON values and `int()` conversion (for the collection-map loader) -/

/-- JSON values as produced by `json.load`, with numbers restricted to the
integers, which is all a collection-map file uses. -/
inductive Json where
  | null
  | bool (b : Bool)
  | num (n : Int)
  | str (s : String)
  | arr (elems : List Json)
  | obj (fields : List (String × Json))

/-- Python exceptions raised inside `load_collection_map`: `ValueError` from
the explicit validation checks and from `int()` on a malformed string,
`TypeError` from `int()` on a value that is not a number, bool or string. -/
inductive PyErr where
  | valueError (msg : String)
  | typeError (msg : String)
deriving DecidableEq

/-- Python `int(x)` applied to a JSON value: integers pass through, bools
coerce to 0/1, strings are parsed as integer literals (`ValueError` when they
do not parse), and every other value is a `TypeError`. -/
def pyInt : Json → Except PyErr Int
  | .num n => .ok n
  | .bool b => .ok (if b then 1 else 0)
  | .str s =>
    match s.toInt? with
    | some n => .ok n
    | none => .error (.valueError "invalid literal for int()")
  | _ => .error (.typeError "int() argument must be a string or a number")

/-- Field lookup in a JSON object, matching the dict `json.load` builds:
with duplicate keys the last binding wins. -/
def jsonLookup (fields : List (String × Json)) (key : String) : Option Json :=
  match fields with
  | [] => none
  | (k, v) :: rest =>
    match jsonLookup rest key with
    | some v2 => some v2
    | none => if k = key then some v else none

/-- `all(isinstance(t, str) for t in elems)`, collecting the strings. -/
def jsonStrings : List Json → Option (List String)
  | [] => some []
  | .str s :: rest =>
    match jsonStrings rest with
    | some ss => some (s :: ss)
    | none => none
  | _ => none

/-- `isinstance(tags, list) and all(isinstance(t, str) for t in tags)`,
returning the strings when the check passes. -/
def jsonStringList : Json → Option (List String)
  | .arr elems => jsonStrings elems
  | _ => none

/-- `Except.ok` as a Bool: did the computation succeed? -/
def exceptOk {ε α : Type} : Except ε α → Bool
  | .ok _ => true
  | .error _ => false

/-! ## Data model -/

/-- A parsed collection-map rule as built by `load_collection_map`:
`{"collection_id": int(...), "tags": [...], "name": rule.get("name")}`.
The `name` value is stored unchecked, so it stays a raw JSON value. -/
structure CollectionRule where
  collection_id : Int
  tags : List String
  name : Option Json := none

/-- One Pinboard export entry, restricted to the dict fields the migration
reads.  The main loop skips entries whose `href` is missing or empty and the
two cases are indistinguishable there, so a missing href is modelled as `""`;
the other optional fields keep their `None` case. -/
structure PinboardEntry where
  href : String
  description : Option String := none
  extended : Option String := none
  tags : String := ""
  toread : Option String := none
  time : Option String := none
deriving DecidableEq

/-- The argparse/env configuration fields consulted by the migration core. -/
structure Args where
  lowercase_tags : Bool
  toread_tag : String
  collection_id : Int
  readlater_collection_id : Option Int
  skip_existing : Bool
  merge_tags : Bool
  dry_run : Bool
  limit : Option Int
deriving DecidableEq

/-- The outbound Raindrop payload built by `pinboard_to_raindrop_payload`.
The constant `pleaseParse` field is omitted; `none` models an absent key. -/
structure RaindropPayload where
  link : String
  title : String
  tags : List String
  important : Bool
  collection : Int
  note : Option String := none
  excerpt : Option String := none
  created : Option String := none
  lastUpdate : Option String := none
deriving DecidableEq

/-- An existing Raindrop record as consumed by `update_raindrop` and the main
loop: `id` is `int(item["_id"])` and `tags` is `item.get("tags", [])` (a record
without tags is modelled by the default `[]`). -/
structure RaindropItem where
  id : Int
  tags : List String
deriving DecidableEq

/-- The PUT body assembled by `update_raindrop`; a `none` field is a key that
was not added to the dict. -/
structure UpdateBody where
  tags : Option (List String) := none
  note : Option String := none
  excerpt : Option String := none
  important : Option Bool := none
deriving DecidableEq

/-- Python `if not update_body:` — the dict is empty iff no key was set. -/
def UpdateBody.isEmpty (b : UpdateBody) : Bool :=
  b.tags.isNone && b.note.isNone && b.excerpt.isNone && b.important.isNone

/-! ## Tag normalization and rule matching (`pinboard_to_raindrop.py`) -/

/-- `normalize_tags`: split the raw Pinboard tag string on single spaces, drop
empty tokens, append `toread_tag` when `toread` is set and the tag is
non-empty, lowercase everything when asked, then `sorted(set(...))`. -/
def normalize_tags (tag_str : String) (lowercase : Bool) (toread : Bool)
    (toread_tag : String) : List String :=
  let tags := (py_split_space tag_str).filter (fun t => t ≠ "")
  let tags := if toread && toread_tag ≠ "" then tags ++ [toread_tag] else tags
  let tags := if lowercase then tags.map py_lower else tags
  py_sorted_set tags

/-- `any(tag in tags for tag in rule["tags"])`: does a rule's tag list meet
the record's tag set? -/
def ruleMatches (tags : List String) (rule : CollectionRule) : Bool :=
  rule.tags.any (fun tag => tags.contains tag)

/-- `guess_collection_from_tags`: iterate the rules in order and return the
first match's `collection_id`, falling back to `default_id`. -/
def guess_collection_from_tags (tags : List String)
    (rules : List CollectionRule) (default_id : Int) : Int :=
  match rules with
  | [] => default_id
  | rule :: rest =>
    if ruleMatches tags rule then rule.collection_id
    else guess_collection_from_tags tags rest default_id

/-- `select_collection_id`: the read-later override applies when it is
configured and `entry.get("toread") == "yes"`; otherwise delegate to
`guess_collection_from_tags`. -/
def select_collection_id (entry : PinboardEntry) (tags : List String)
    (default_id : Int) (readlater_id : Option Int)
    (rules : List CollectionRule) : Int :=
  match readlater_id with
  | some rid =>
    if entry.toread = some "yes" then rid
    else guess_collection_from_tags tags rules default_id
  | none => guess_collection_from_tags tags rules default_id

/-- `pinboard_to_raindrop_payload`: normalize the tags (injecting the toread
tag when `toread == "yes"`), pick the collection, fall back to the URL as
title, mark `important` when the tag "starred" is present, and copy
note/excerpt and timestamps only when non-empty. -/
def pinboard_to_raindrop_payload (entry : PinboardEntry) (args : Args)
    (rules : List CollectionRule) : RaindropPayload :=
  let toread_flag := entry.toread = some "yes"
  let tags := normalize_tags entry.tags args.lowercase_tags toread_flag
    args.toread_tag
  { link := entry.href
    title :=
      match entry.description with
      | some d => if d = "" then entry.href else d
      | none => entry.href
    tags := tags
    important := tags.contains "starred"
    collection := select_collection_id entry tags args.collection_id
      args.readlater_collection_id rules
    note := if pyTruthy entry.extended then entry.extended else none
    excerpt := if pyTruthy entry.extended then entry.extended else none
    created := if pyTruthy entry.time then entry.time else none
    lastUpdate := if pyTruthy entry.time then entry.time else none }

/-! ## Existing-record lookup and the update delta -/

/-- A response to the search `GET /raindrops/0` as read by
`find_existing_raindrop`: the HTTP status and the decoded `items` array. -/
structure SearchResponse where
  status : Nat
  items : List RaindropItem
deriving DecidableEq

/-- The outcome of the search request: a transport-level `httpx.HTTPError`
with no response, or a response (possibly an HTTP error status). -/
inductive SearchOutcome where
  | netError
  | response (resp : SearchResponse)
deriving DecidableEq

/-- `response.raise_for_status()` raises `httpx.HTTPStatusError` — a subclass
of `httpx.HTTPError` — exactly for the 4xx and 5xx statuses. -/
def raisesForStatus (status : Nat) : Bool := decide (400 ≤ status)

/-- `find_existing_raindrop`: every `httpx.HTTPError` (transport failure or
error status) is caught and logged and the function returns `(None, None)`,
modelled as `none`; otherwise the first item of the response, if any, is
returned together with `int(item["_id"])`. -/
def find_existing_raindrop (outcome : SearchOutcome) :
    Option (RaindropItem × Int) :=
  match outcome with
  | .netError => none
  | .response resp =>
    if raisesForStatus resp.status then none
    else
      match resp.items with
      | [] => none
      | item :: _ => some (item, item.id)

/-- The update delta dict built inside `update_raindrop`: with `merge_tags`
the tags key is set to `sorted(set(existing tags) | set(payload tags))`;
note/excerpt/important are added only when the payload supplies a truthy
value. -/
def update_body (payload : RaindropPayload) (existing : RaindropItem)
    (merge_tags : Bool) : UpdateBody :=
  { tags :=
      if merge_tags then some (py_sorted_set (existing.tags ++ payload.tags))
      else none
    note := if pyTruthy payload.note then payload.note else none
    excerpt := if pyTruthy payload.excerpt then payload.excerpt else none
    important := if payload.important then some true else none }

/-- `update_raindrop`, with the HTTP layer abstracted: `put_ok` says whether
the PUT, if one is issued, succeeds.  The result is the Python return value
paired with the PUT body that was sent — `none` when the empty delta
short-circuits with `return True  # nothing to change`. -/
def update_raindrop (payload : RaindropPayload) (existing : RaindropItem)
    (merge_tags : Bool) (put_ok : Bool) : Bool × Option UpdateBody :=
  let body := update_body payload existing merge_tags
  if body.isEmpty then (true, none)
  else (put_ok, some body)

/-! ## The reconciliation branch and the main loop -/

/-- The action the loop body takes for one record. -/
inductive ReconcileAction where
  | create
  | skip
  | merge
deriving DecidableEq

/-- The reconciliation decision of `main`: the lookup result is consulted only
when `skip_existing or merge_tags` asked for a lookup; then
`if existing_item and skip_existing and not merge_tags` skips,
`elif existing_item and merge_tags and existing_id` merges — `existing_id`
participates by Python truthiness, so a found id of 0 is falsy — and
everything else creates.  `lookup` is the `find_existing_raindrop` result,
with `none` for the `(None, None)` tuple. -/
def reconcile_action (lookup : Option (RaindropItem × Int))
    (skip_existing merge_tags : Bool) : ReconcileAction :=
  match (if skip_existing || merge_tags then lookup else none) with
  | none => .create
  | some (_, id) =>
    if skip_existing && !merge_tags then .skip
    else if merge_tags && id != 0 then .merge
    else .create

/-- The run counters of `main`, all starting at 0. -/
structure Stats where
  processed : Nat := 0
  created : Nat := 0
  skipped_existing : Nat := 0
  updated : Nat := 0
  failed : Nat := 0
  duplicate_input : Nat := 0
deriving DecidableEq

/-- A write issued to the Raindrop API by the loop body. -/
inductive WriteOp where
  | create (payload : RaindropPayload)
  | update (id : Int) (body : UpdateBody)
deriving DecidableEq

/-- The loop state of `main`: the batch-local `seen_links` set, the counters,
and the writes performed so far (appended in order). -/
structure BatchState where
  seen : List String
  stats : Stats
  writes : List WriteOp
deriving DecidableEq

/-- The external world for one loop iteration: the search result that
`find_existing_raindrop` would produce if called, and the success of the
create/update request if one is issued. -/
structure EntryEnv where
  lookup : Option (RaindropItem × Int)
  create_ok : Bool
  update_ok : Bool
deriving DecidableEq

/-- One iteration of the `main` loop body, after the limit check: skip an
entry with a falsy href; count a duplicate-within-batch href and stop; else
record the href as seen, build the payload, and in a real run look up the
existing record (only when `skip_existing or merge_tags`) and act on the
reconciliation decision.  `time.sleep` and logging are dropped. -/
def process_one (args : Args) (rules : List CollectionRule) (env : EntryEnv)
    (st : BatchState) (entry : PinboardEntry) : BatchState :=
  if entry.href = "" then st
  else if st.seen.contains entry.href then
    { st with stats :=
        { st.stats with duplicate_input := st.stats.duplicate_input + 1 } }
  else
    let st1 := { st with seen := entry.href :: st.seen }
    let payload := pinboard_to_raindrop_payload entry args rules
    if args.dry_run then
      { st1 with stats :=
          { st1.stats with processed := st1.stats.processed + 1 } }
    else
      let lk := if args.skip_existing || args.merge_tags then env.lookup
        else none
      let st2 :=
        match lk with
        | some (item, id) =>
          if args.skip_existing && !args.merge_tags then
            { st1 with stats :=
                { st1.stats with
                    skipped_existing := st1.stats.skipped_existing + 1 } }
          else if args.merge_tags && id != 0 then
            let result := update_raindrop payload item true env.update_ok
            { st1 with
              stats :=
                if result.1 then
                  { st1.stats with updated := st1.stats.updated + 1 }
                else { st1.stats with failed := st1.stats.failed + 1 }
              writes := st1.writes ++
                (match result.2 with
                 | some body => [WriteOp.update id body]
                 | none => []) }
          else
            { st1 with
              stats :=
                if env.create_ok then
                  { st1.stats with created := st1.stats.created + 1 }
                else { st1.stats with failed := st1.stats.failed + 1 }
              writes := st1.writes ++ [WriteOp.create payload] }
        | none =>
          { st1 with
            stats :=
              if env.create_ok then
                { st1.stats with created := st1.stats.created + 1 }
              else { st1.stats with failed := st1.stats.failed + 1 }
            writes := st1.writes ++ [WriteOp.create payload] }
      { st2 with stats :=
          { st2.stats with processed := st2.stats.processed + 1 } }

/-- `if args.limit and stats["processed"] >= args.limit: break` — a limit of
`None` or 0 is falsy and never stops the loop. -/
def limit_reached (limit : Option Int) (processed : Nat) : Bool :=
  match limit with
  | some n => n != 0 && decide (n ≤ (processed : Int))
  | none => false

/-- The `main` migration loop over the Pinboard posts: before each entry the
limit is checked (a `break`), then the body runs.  Each entry carries the
environment for its iteration. -/
def main_loop (args : Args) (rules : List CollectionRule)
    (st : BatchState) : List (PinboardEntry × EntryEnv) → BatchState
  | [] => st
  | (entry, env) :: rest =>
    if limit_reached args.limit st.stats.processed then st
    else main_loop args rules (process_one args rules env st entry) rest

/-- The start of a run: `seen_links = set()` and zeroed stats, rebuilt on
every invocation — nothing is carried over between runs. -/
def initial_state : BatchState := { seen := [], stats := {}, writes := [] }

/-- A whole migration batch: the loop started from the fresh state. -/
def run_batch (args : Args) (rules : List CollectionRule)
    (entries : List (PinboardEntry × EntryEnv)) : BatchState :=
  main_loop args rules initial_state entries

/-! ## The collection-map loader -/

/-- The body of the `load_collection_map` validation loop at index `idx`:
the entry must be a dict containing `collection_id` and `tags`, `tags` must be
a list of strings — the list may be empty, nothing checks that — and the rule
is built with `int(rule["collection_id"])` and the unchecked
`rule.get("name")`. -/
def parse_rule (idx : Nat) (j : Json) : Except PyErr CollectionRule :=
  match j with
  | .obj fields =>
    match jsonLookup fields "collection_id", jsonLookup fields "tags" with
    | some cid, some tagsJson =>
      match jsonStringList tagsJson with
      | some tags =>
        match pyInt cid with
        | .ok n =>
          .ok { collection_id := n, tags := tags
                name := jsonLookup fields "name" }
        | .error e => .error e
      | none =>
        .error (.valueError
          ("rule " ++ toString idx ++ " tags must be a list of strings"))
    | _, _ =>
      .error (.valueError
        ("rule " ++ toString idx ++ " must include collection_id and tags"))
  | _ => .error (.valueError ("rule " ++ toString idx ++ " must be an object"))

/-- The `enumerate(data)` loop of `load_collection_map`: validate and build
each rule in order, stopping at the first failure. -/
def load_rules_from (idx : Nat) : List Json → Except PyErr (List CollectionRule)
  | [] => .ok []
  | j :: rest =>
    match parse_rule idx j with
    | .ok r =>
      match load_rules_from (idx + 1) rest with
      | .ok rs => .ok (r :: rs)
      | .error e => .error e
    | .error e => .error e

/-- `load_collection_map` on parsed JSON data: reject a non-list document,
then validate the rules in order.  (The `path is None` early return of `[]`
happens before any JSON exists and is not modelled.) -/
def load_collection_map (data : Json) : Except PyErr (List CollectionRule) :=
  match data with
  | .arr entries => load_rules_from 0 entries
  | _ => .error (.valueError "collection map must be a JSON list")

/-- An entry `load_collection_map` accepts: an object carrying
`collection_id` and `tags`, whose `tags` is a list of strings (possibly
empty) and whose `collection_id` converts under `int()`. -/
def ruleWellFormed (j : Json) : Bool :=
  match j with
  | .obj fields =>
    match jsonLookup fields "collection_id", jsonLookup fields "tags" with
    | some cid, some tagsJson =>
      (jsonStringList tagsJson).isSome && exceptOk (pyInt cid)
    | _, _ => false
  | _ => false

/-- A whole collection-map document the loader accepts: a list of well-formed
entries. -/
def mapWellFormed (data : Json) : Bool :=
  match data with
  | .arr entries => entries.all ruleWellFormed
  | _ => false

/-! ## The unsorted reclassifier (`suggest_collections.py`) -/

/-- `guess_collection`: the same first-match rule scan, but with no default —
`None` when nothing matches. -/
def guess_collection (tags : List String) (rules : List CollectionRule) :
    Option Int :=
  match rules with
  | [] => none
  | rule :: rest =>
    if ruleMatches tags rule then some rule.collection_id
    else guess_collection tags rest

/-- Models `urllib.parse.urlparse(url).netloc` for the URL shapes the
reclassifier meets: an optional non-empty `scheme:` prefix is removed, and the
authority component is present exactly when the remainder starts with `//`,
extending to the next `/`, `?` or `#`. -/
def urlparse_netloc (url : String) : String :=
  let stop := fun c : Char => c != ':' && c != '/' && c != '?' && c != '#'
  let rest :=
    match url.data.takeWhile stop, url.data.dropWhile stop with
    | _ :: _, ':' :: r => r
    | _, _ => url.data
  match rest with
  | '/' :: '/' :: r =>
    String.mk (r.takeWhile (fun c => c != '/' && c != '?' && c != '#'))
  | _ => ""

/-- `suggest_new_collection`: the first tag when any exists, else the URL host
with a leading `www.` stripped, else `None` (from `host or None`). -/
def suggest_new_collection (tags : List String) (link : String) :
    Option String :=
  match tags with
  | t :: _ => some t
  | [] =>
    let host := urlparse_netloc link
    let host :=
      match host.data with
      | 'w' :: 'w' :: 'w' :: '.' :: r => String.mk r
      | _ => host
    if host = "" then none else some host

/-! ## Concrete instances used by the counterexamples and witnesses -/

/-- A concrete payload whose tags the existing record already contains and
which supplies no note, no excerpt and `important = false`. -/
def idemPayload : RaindropPayload :=
  { link := "https://example.com", title := "Example", tags := ["a"],
    important := false, collection := 0 }

/-- The matching concrete existing record. -/
def idemExisting : RaindropItem := { id := 1, tags := ["a"] }

/-- The decision table of claim C2 as amended, written from the claim's
words: CREATE when nothing was found (or no lookup made), SKIP for
skip-without-merge, MERGE under merge_tags when the found id is non-zero,
CREATE otherwise — including the duplicate-permitted bottom row. -/
def reconcile_table (lookup : Option (RaindropItem × Int))
    (skip_existing merge_tags : Bool) : ReconcileAction :=
  match lookup with
  | none => .create
  | some (_, id) =>
    if merge_tags then (if id != 0 then .merge else .create)
    else if skip_existing then .skip
    else .create

/-- A concrete well-formed one-rule collection map document body. -/
def wfMapEntries : List Json :=
  [Json.obj [("collection_id", Json.num 7),
    ("tags", Json.arr [Json.str "work"])]]

/-! ## Helper lemmas about `py_sorted_set` -/

theorem py_sorted_set_sorted (l : List String) :
    (py_sorted_set l).Sorted pyStrLe :=
  List.sorted_insertionSort pyStrLe l.dedup

theorem py_sorted_set_nodup (l : List String) : (py_sorted_set l).Nodup :=
  (List.perm_insertionSort pyStrLe l.dedup).nodup_iff.mpr l.nodup_dedup

theorem py_sorted_set_mem (l : List String) (x : String) :
    x ∈ py_sorted_set l ↔ x ∈ l := by
  rw [py_sorted_set, List.mem_insertionSort, List.mem_dedup]

theorem py_sorted_set_append_subset (a b : List String)
    (h : ∀ x ∈ b, x ∈ a) : py_sorted_set (a ++ b) = py_sorted_set a := by
  apply List.eq_of_perm_of_sorted _ (List.sorted_insertionSort _ _)
    (List.sorted_insertionSort _ _)
  refine ((List.perm_insertionSort _ _).trans ?_).trans
    (List.perm_insertionSort _ _).symm
  rw [List.perm_ext_iff_of_nodup (List.nodup_dedup _) (List.nodup_dedup _)]
  intro x
  simp only [List.mem_dedup, List.mem_append]
  constructor
  · rintro (hx | hx)
    · exact hx
    · exact h x hx
  · exact Or.inl

/-! ## C3: first-match-wins rule matching -/

/-- C3: for every tag set, ordered rule list and default id,
`guess_collection_from_tags` returns the `collection_id` of the first rule in
list order whose tag list has a non-empty intersection with the tag set, and
the default id when no rule matches; so when two rules both match, the
earlier rule wins regardless of overlap size. -/
theorem guess_collection_from_tags_first_match (tags : List String)
    (rules : List CollectionRule) (default_id : Int) :
    guess_collection_from_tags tags rules default_id =
      match rules.find? (fun r => ruleMatches tags r) with
      | some r => r.collection_id
      | none => default_id := by
  induction rules with
  | nil => rfl
  | cons r rest ih =>
    cases h : ruleMatches tags r with
    | true => simp [guess_collection_from_tags, List.find?_cons, h]
    | false => simp [guess_collection_from_tags, List.find?_cons, h, ih]

/-! ## C4: read-later override precedence -/

/-- C4: when a read-later override id is configured and the record's toread
flag is `"yes"`, `select_collection_id` returns the override unconditionally
(whatever the rules would say); otherwise it delegates to the rule matcher
with the default id, and with no override configured it always delegates. -/
theorem select_collection_id_override (entry : PinboardEntry)
    (tags : List String) (default_id rid : Int)
    (rules : List CollectionRule) :
    (select_collection_id entry tags default_id (some rid) rules =
      if entry.toread = some "yes" then rid
      else guess_collection_from_tags tags rules default_id) ∧
    select_collection_id entry tags default_id none rules =
      guess_collection_from_tags tags rules default_id :=
  ⟨rfl, rfl⟩

/-! ## C5: tag normalization -/

/-- C5: `normalize_tags` returns a lexicographically sorted, duplicate-free
list whose members are exactly the non-empty space-separated tokens of the
input (lowercased under the flag) plus the injected tag when the inject
condition holds and the tag is non-empty; `pyStrLe` is the lexicographic
string order; the concrete cases `"a b a" ↦ ["a", "b"]` and `"" ↦ []`
(plus injected tag) hold, and the function is total, so no error is
possible. -/
theorem normalize_tags_spec :
    (∀ s lc tr tag, (normalize_tags s lc tr tag).Sorted pyStrLe ∧
      (normalize_tags s lc tr tag).Nodup ∧
      (∀ x, x ∈ normalize_tags s lc tr tag ↔
        (∃ t, t ∈ py_split_space s ∧ t ≠ "" ∧
          x = (if lc then py_lower t else t)) ∨
        (tr = true ∧ tag ≠ "" ∧ x = (if lc then py_lower tag else tag)))) ∧
    (∀ a b, pyStrLe a b ↔ a ≤ b) ∧
    normalize_tags "a b a" false false "" = ["a", "b"] ∧
    normalize_tags "" false false "" = [] ∧
    normalize_tags "" false true "toread" = ["toread"] := by
  refine ⟨fun s lc tr tag => ⟨py_sorted_set_sorted _, py_sorted_set_nodup _,
    fun x => ?_⟩, fun a b => String.le_iff_toList_le.symm,
    by decide, by decide, by decide⟩
  simp only [normalize_tags, py_sorted_set_mem]
  cases lc <;> cases tr <;> by_cases htag : tag = "" <;>
    simp [htag, List.mem_filter, List.mem_append, List.mem_map, @eq_comm _ x,
      and_assoc]

/-! ## C10: case-sensitive exact tag matching -/

/-- C10: a rule matches exactly when one of its tag strings occurs verbatim
in the tag set — comparison is case-sensitive string equality — so with
lowercasing disabled a record tag "Work" does not match a rule tag "work" and
the record falls through to the default collection, while "work" matches. -/
theorem rule_matching_case_sensitive :
    (∀ tags rule, ruleMatches tags rule = true ↔
      ∃ t, t ∈ rule.tags ∧ t ∈ tags) ∧
    normalize_tags "Work" false false "" = ["Work"] ∧
    guess_collection_from_tags (normalize_tags "Work" false false "")
      [{ collection_id := 555, tags := ["work"] }] 0 = 0 ∧
    guess_collection_from_tags (normalize_tags "work" false false "")
      [{ collection_id := 555, tags := ["work"] }] 0 = 555 := by
  refine ⟨fun tags rule => ?_, by decide, by decide, by decide⟩
  simp [ruleMatches, List.any_eq_true, List.elem_iff]

/-! ## C1: the merge delta is never empty under merge_tags -/

/-- C1 counterexample: merging identical data with `merge_tags=True` does NOT
produce an empty delta — the body always carries the tags key — and
`update_raindrop` issues a PUT (the second component is the body sent),
contradicting the claim's "empty delta, no write". -/
theorem update_raindrop_idempotent_claim_false :
    (update_body idemPayload idemExisting true).isEmpty = false ∧
    update_raindrop idemPayload idemExisting true true =
      (true, some { tags := some ["a"] }) := by
  constructor <;> rfl

/-- C1 (amended): with `merge_tags=True` the delta always contains the tags
field; when the existing tags contain the payload's tags and the payload
supplies no non-empty note/excerpt and `important=false`, that field is just
the existing record's own tag set sorted and deduplicated, the delta is not
empty, and a PUT carrying it is issued (success reported iff the write
succeeds).  The empty-delta no-op that still reports success arises exactly
on the `merge_tags=False` path of `update_raindrop` for such a payload. -/
theorem update_raindrop_merge_always_writes (payload : RaindropPayload)
    (existing : RaindropItem)
    (hsub : ∀ t ∈ payload.tags, t ∈ existing.tags)
    (hnote : pyTruthy payload.note = false)
    (hexc : pyTruthy payload.excerpt = false)
    (himp : payload.important = false) :
    update_body payload existing true =
      { tags := some (py_sorted_set existing.tags) } ∧
    (update_body payload existing true).isEmpty = false ∧
    (∀ put_ok, update_raindrop payload existing true put_ok =
      (put_ok, some { tags := some (py_sorted_set existing.tags) })) ∧
    (update_body payload existing false).isEmpty = true ∧
    (∀ put_ok, update_raindrop payload existing false put_ok =
      (true, none)) := by
  have hbody : update_body payload existing true =
      { tags := some (py_sorted_set existing.tags) } := by
    simp [update_body, hnote, hexc, himp,
      py_sorted_set_append_subset existing.tags payload.tags hsub]
  have hbody0 : update_body payload existing false = {} := by
    simp [update_body, hnote, hexc, himp]
  refine ⟨hbody, ?_, fun put_ok => ?_, ?_, fun put_ok => ?_⟩
  · rw [hbody]; rfl
  · simp only [update_raindrop, hbody]; rfl
  · rw [hbody0]; rfl
  · simp only [update_raindrop, hbody0]; rfl

/-- Witness for the amended C1 at the concrete pair: the merge delta is not
empty, the no-merge delta is. -/
theorem update_raindrop_merge_always_writes_witness :
    (update_body idemPayload idemExisting true).isEmpty = false ∧
    (update_body idemPayload idemExisting false).isEmpty = true :=
  ⟨(update_raindrop_merge_always_writes idemPayload idemExisting
      (by decide) (by decide) (by decide) (by decide)).2.1,
   (update_raindrop_merge_always_writes idemPayload idemExisting
      (by decide) (by decide) (by decide) (by decide)).2.2.2.1⟩

/-! ## C2: the reconciliation decision table -/

/-- C2 (amended): the loop's reconciliation branch agrees with the decision
table everywhere, with MERGE additionally requiring the found record's id to
be non-zero (Python truthiness of `existing_id`). -/
theorem reconcile_action_matches_table (lookup : Option (RaindropItem × Int))
    (skip_existing merge_tags : Bool) :
    reconcile_action lookup skip_existing merge_tags =
      reconcile_table lookup skip_existing merge_tags := by
  cases lookup with
  | none => cases skip_existing <;> cases merge_tags <;> rfl
  | some p =>
    obtain ⟨item, id⟩ := p
    cases skip_existing <;> cases merge_tags <;>
      simp [reconcile_action, reconcile_table]

/-- C2 counterexample: a record found with `merge_tags` on is NOT merged when
its id is 0 — `elif existing_item and args.merge_tags and existing_id` is
falsy for id 0 and the code falls through to CREATE. -/
theorem reconcile_action_found_zero_id_not_merged :
    reconcile_action (some ({ id := 0, tags := [] }, 0)) false true =
      ReconcileAction.create ∧
    reconcile_action (some ({ id := 0, tags := [] }, 0)) false true ≠
      ReconcileAction.merge := by
  constructor <;> decide

/-! ## C7: a failed lookup degrades to CREATE -/

/-- C7: when the search call fails — a transport-level error or an HTTP error
status raised by `raise_for_status`, both `httpx.HTTPError`s —
`find_existing_raindrop` returns `(None, None)` (modelled `none`), and the
reconciliation branch therefore takes the CREATE path for every flag
combination: the record degrades to CREATE instead of aborting the batch. -/
theorem find_existing_raindrop_failure_is_not_found (outcome : SearchOutcome)
    (h : outcome = SearchOutcome.netError ∨
      ∃ resp, outcome = SearchOutcome.response resp ∧ 400 ≤ resp.status) :
    find_existing_raindrop outcome = none ∧
    ∀ se mt, reconcile_action (find_existing_raindrop outcome) se mt =
      ReconcileAction.create := by
  have hnone : find_existing_raindrop outcome = none := by
    rcases h with h | ⟨resp, rfl, hstatus⟩
    · rw [h]; rfl
    · simp [find_existing_raindrop, raisesForStatus, hstatus]
  refine ⟨hnone, fun se mt => ?_⟩
  rw [hnone]
  simp [reconcile_action, ite_self]

/-- Witness for C7 at a concrete failed lookup: HTTP 500 on a response that
does contain a matching item, still treated as "not found". -/
theorem find_existing_raindrop_failure_is_not_found_witness :
    find_existing_raindrop (SearchOutcome.response
      { status := 500, items := [{ id := 7, tags := ["a"] }] }) = none ∧
    ∀ se mt, reconcile_action (find_existing_raindrop
      (SearchOutcome.response
        { status := 500, items := [{ id := 7, tags := ["a"] }] })) se mt =
      ReconcileAction.create :=
  find_existing_raindrop_failure_is_not_found _
    (Or.inr ⟨_, rfl, by decide⟩)

/-! ## C8: the reclassifier and its suggestion -/

/-- C8: `guess_collection` is the first-match rule scan with no default —
`none` when no rule matches — and in that unmatched case
`suggest_new_collection` proposes the first existing tag if any tag exists,
else the URL host with a leading "www." stripped, else none; concretely,
empty tags with URL "https://www.host.com/x" and no matching rule give
unmatched with suggestion "host.com". -/
theorem reclassifier_unmatched_suggestion (rules : List CollectionRule)
    (h : ∀ r ∈ rules, ruleMatches [] r = false) :
    guess_collection [] rules = none ∧
    suggest_new_collection [] "https://www.host.com/x" = some "host.com" ∧
    (∀ tags rules2, guess_collection tags rules2 =
      (rules2.find? (fun r => ruleMatches tags r)).map
        (fun r => r.collection_id)) ∧
    (∀ t ts link, suggest_new_collection (t :: ts) link = some t) ∧
    suggest_new_collection [] "" = none := by
  have hfind : ∀ tags (rules2 : List CollectionRule),
      guess_collection tags rules2 =
        (rules2.find? (fun r => ruleMatches tags r)).map
          (fun r => r.collection_id) := by
    intro tags rules2
    induction rules2 with
    | nil => rfl
    | cons r rest ih =>
      cases hr : ruleMatches tags r with
      | true => simp [guess_collection, List.find?_cons, hr]
      | false => simp [guess_collection, List.find?_cons, hr, ih]
  have hnone : rules.find? (fun r => ruleMatches [] r) = none :=
    List.find?_eq_none.mpr (fun r hr => by simp [h r hr])
  refine ⟨?_, by decide, hfind, fun t ts link => rfl, by decide⟩
  rw [hfind, hnone]
  rfl

/-- Witness for C8: a concrete rule list that does not match the empty tag
set, and the concrete suggestion for the www-prefixed host. -/
theorem reclassifier_unmatched_suggestion_witness :
    guess_collection [] [{ collection_id := 555, tags := ["work"] }] = none ∧
    suggest_new_collection [] "https://www.host.com/x" = some "host.com" :=
  ⟨(reclassifier_unmatched_suggestion
      [{ collection_id := 555, tags := ["work"] }] (by decide)).1,
   (reclassifier_unmatched_suggestion [] (by decide)).2.1⟩

/-! ## C9: duplicate URLs within a batch -/

theorem process_one_seen_cases (args : Args) (rules : List CollectionRule)
    (env : EntryEnv) (st : BatchState) (entry : PinboardEntry) :
    (process_one args rules env st entry).seen = st.seen ∨
    (process_one args rules env st entry).seen = entry.href :: st.seen := by
  simp only [process_one]
  split
  · exact Or.inl rfl
  split
  · exact Or.inl rfl
  split
  · exact Or.inr rfl
  split
  · split
    · exact Or.inr rfl
    split
    · exact Or.inr rfl
    · exact Or.inr rfl
  · exact Or.inr rfl

theorem process_one_seen_mono (args : Args) (rules : List CollectionRule)
    (env : EntryEnv) (st : BatchState) (entry : PinboardEntry) (u : String)
    (hu : u ∈ st.seen) : u ∈ (process_one args rules env st entry).seen := by
  rcases process_one_seen_cases args rules env st entry with hc | hc <;>
    rw [hc]
  · exact hu
  · exact List.mem_cons_of_mem _ hu

theorem main_loop_seen_mono (args : Args) (rules : List CollectionRule) :
    ∀ (l : List (PinboardEntry × EntryEnv)) (st : BatchState) (u : String),
      u ∈ st.seen → u ∈ (main_loop args rules st l).seen := by
  intro l
  induction l with
  | nil => exact fun st u hu => hu
  | cons p rest ih =>
    intro st u hu
    obtain ⟨entry, env⟩ := p
    rw [main_loop]
    split
    · exact hu
    · exact ih _ _ (process_one_seen_mono _ _ _ _ _ _ hu)

/-- C9: within one batch, a URL already in the seen set only increments the
duplicate counter — the state is otherwise untouched, so the record is
neither written nor counted as processed; a processed URL enters the seen
set; the seen set only grows through the loop; and a run starts from the
fresh empty state, so the set is batch-local. -/
theorem duplicate_url_not_reprocessed (args : Args)
    (rules : List CollectionRule) (env : EntryEnv) (st : BatchState)
    (entry : PinboardEntry) (h : entry.href ≠ "") :
    (entry.href ∈ st.seen →
      process_one args rules env st entry =
        { st with stats :=
            { st.stats with
                duplicate_input := st.stats.duplicate_input + 1 } }) ∧
    (entry.href ∉ st.seen →
      entry.href ∈ (process_one args rules env st entry).seen) ∧
    (∀ u ∈ st.seen, u ∈ (process_one args rules env st entry).seen) ∧
    (∀ l st0, ∀ u ∈ st0.seen, u ∈ (main_loop args rules st0 l).seen) ∧
    run_batch args rules [] = initial_state := by
  refine ⟨fun hdup => ?_, fun hnew => ?_,
    fun u hu => process_one_seen_mono _ _ _ _ _ _ hu,
    fun l st0 u hu => main_loop_seen_mono _ _ l st0 u hu, rfl⟩
  · have hc : st.seen.contains entry.href = true := List.elem_iff.mpr hdup
    rw [process_one, if_neg h, if_pos hc]
  · have hc : ¬st.seen.contains entry.href = true :=
      fun hcc => hnew (List.elem_iff.mp hcc)
    rcases process_one_seen_cases args rules env st entry with hc2 | hc2
    · exfalso
      have : (process_one args rules env st entry).seen =
          entry.href :: st.seen := by
        simp only [process_one, if_neg h, if_neg hc]
        split
        · rfl
        split
        · split
          · rfl
          split
          · rfl
          · rfl
        · rfl
      rw [this] at hc2
      exact hnew (hc2 ▸ List.mem_cons_self _ _)
    · rw [hc2]
      exact List.mem_cons_self _ _

/-! ## C6: collection-map validation -/

theorem parse_rule_isOk (idx : Nat) (j : Json) :
    exceptOk (parse_rule idx j) = ruleWellFormed j := by
  cases j with
  | obj fields =>
    rcases hcid : jsonLookup fields "collection_id" with _ | cid
    · simp [parse_rule, ruleWellFormed, hcid, exceptOk]
    · rcases htags : jsonLookup fields "tags" with _ | tagsJson
      · simp [parse_rule, ruleWellFormed, hcid, htags, exceptOk]
      · rcases hsl : jsonStringList tagsJson with _ | tags
        · simp [parse_rule, ruleWellFormed, hcid, htags, hsl, exceptOk]
        · rcases hpi : pyInt cid with e | n <;>
            simp [parse_rule, ruleWellFormed, hcid, htags, hsl, hpi, exceptOk]
  | null => rfl
  | bool b => rfl
  | num n => rfl
  | str s => rfl
  | arr es => rfl

theorem load_rules_from_isOk (idx : Nat) (es : List Json) :
    exceptOk (load_rules_from idx es) = es.all ruleWellFormed := by
  induction es generalizing idx with
  | nil => rfl
  | cons j rest ih =>
    have h1 := parse_rule_isOk idx j
    simp only [load_rules_from, List.all_cons, ← h1]
    cases hp : parse_rule idx j with
    | error e => simp [exceptOk]
    | ok r =>
      have h3 := ih (idx + 1)
      simp only [← h3, exceptOk, Bool.true_and]
      cases hl : load_rules_from (idx + 1) rest with
      | ok rs => rfl
      | error e => rfl

theorem load_rules_from_index (idx : Nat) :
    ∀ (es : List Json) (rs : List CollectionRule),
      load_rules_from idx es = Except.ok rs →
      rs.length = es.length ∧
      ∀ i (hi : i < es.length) (hr : i < rs.length),
        parse_rule (idx + i) (es.get ⟨i, hi⟩) = Except.ok (rs.get ⟨i, hr⟩) := by
  intro es
  induction es generalizing idx with
  | nil =>
    intro rs h
    simp only [load_rules_from] at h
    injection h with h2
    subst h2
    exact ⟨rfl, fun i hi => absurd hi (Nat.not_lt_zero i)⟩
  | cons j rest ih =>
    intro rs h
    simp only [load_rules_from] at h
    cases hp : parse_rule idx j with
    | error e => rw [hp] at h; simp at h
    | ok r =>
      rw [hp] at h
      cases hl : load_rules_from (idx + 1) rest with
      | error e => rw [hl] at h; simp at h
      | ok rs2 =>
        rw [hl] at h
        injection h with h2
        subst h2
        obtain ⟨hlen, hidx⟩ := ih (idx + 1) rs2 hl
        refine ⟨by simp [hlen], fun i hi hr => ?_⟩
        cases i with
        | zero => simpa using hp
        | succ i2 =>
          have h4 := hidx i2 (by simpa using hi) (by simpa using hr)
          have harith : idx + (i2 + 1) = idx + 1 + i2 := by omega
          rw [harith]
          simpa using h4

/-- C6 counterexample: an entry whose tag list is EMPTY passes validation —
`all()` over an empty list is vacuously true and nothing else checks
emptiness — so the loader returns the rule (which can never match), while the
claim calls this input a fatal configuration error. -/
theorem load_collection_map_empty_tags_accepted :
    load_collection_map
      (Json.arr [Json.obj
        [("collection_id", Json.num 1), ("tags", Json.arr [])]]) =
      Except.ok [{ collection_id := 1, tags := [], name := none }] := rfl

/-- C6 (amended): `load_collection_map` raises exactly when the document is
not a list, or some entry is not an object, or lacks `collection_id` or
`tags`, or its `tags` value is not a list of strings, or its `collection_id`
does not convert under `int()`; an entry whose tag list is empty is accepted.
For accepted input the rules come back in input order: the i-th rule is
parsed from the i-th entry. -/
theorem load_collection_map_validation (data : Json) :
    (exceptOk (load_collection_map data) = true ↔
      mapWellFormed data = true) ∧
    (∀ entries rs, data = Json.arr entries →
      load_collection_map data = Except.ok rs →
      rs.length = entries.length ∧
      ∀ i (hi : i < entries.length) (hr : i < rs.length),
        parse_rule i (entries.get ⟨i, hi⟩) =
          Except.ok (rs.get ⟨i, hr⟩)) := by
  constructor
  · cases data with
    | arr es =>
      rw [show load_collection_map (Json.arr es) = load_rules_from 0 es from
        rfl, load_rules_from_isOk]
      exact Iff.rfl
    | null => simp [load_collection_map, mapWellFormed, exceptOk]
    | bool b => simp [load_collection_map, mapWellFormed, exceptOk]
    | num n => simp [load_collection_map, mapWellFormed, exceptOk]
    | str s => simp [load_collection_map, mapWellFormed, exceptOk]
    | obj fields => simp [load_collection_map, mapWellFormed, exceptOk]
  · rintro entries rs rfl h
    have h2 := load_rules_from_index 0 entries rs h
    simpa using h2

/-- Witness for C6 at a concrete well-formed one-rule map: the loader
accepts it and returns exactly one rule for the one entry. -/
theorem load_collection_map_validation_witness :
    exceptOk (load_collection_map (Json.arr wfMapEntries)) = true ∧
    ([{ collection_id := 7, tags := ["work"], name := none }] :
        List CollectionRule).length = wfMapEntries.length :=
  ⟨(load_collection_map_validation (Json.arr wfMapEntries)).1.mpr rfl,
   ((load_collection_map_validation (Json.arr wfMapEntries)).2 wfMapEntries
      [{ collection_id := 7, tags := ["work"], name := none }] rfl rfl).1⟩

/-- Witness for C9: processing a concrete entry whose URL is already in the
seen set only bumps the duplicate counter. -/
theorem duplicate_url_not_reprocessed_witness :
    process_one
      { lowercase_tags := false, toread_tag := "toread", collection_id := 0,
        readlater_collection_id := none, skip_existing := true,
        merge_tags := false, dry_run := false, limit := none } []
      { lookup := none, create_ok := true, update_ok := true }
      { seen := ["https://a"], stats := {}, writes := [] }
      { href := "https://a" } =
      { seen := ["https://a"], stats := { duplicate_input := 1 },
        writes := [] } :=
  (duplicate_url_not_reprocessed _ _ _ _ _ (by decide)).1 (by decide)
